import Mathlib

/-!
Verification development for the WHOIS-to-RDAP normalization service
(`src/rdap_server.py`).  The Python source is shallowly embedded below:
pure helper functions (`parse_date`, `format_date`) and the normalizer
(`map_whois_to_rdap`) become executable Lean functions; the wall-clock
read performed for the "last update of RDAP database" event is made
explicit as a `now` parameter; the HTTP orchestrator (`domain_lookup`)
becomes a function of the (already performed) WHOIS lookup result.

Strings are modelled over their ASCII fragment: Python `str.lower()` /
`str.upper()` are modelled by mapping `Char.toLower` / `Char.toUpper`
(ASCII case mapping), which agrees with CPython on all ASCII data
(domains, EPP status codes, registrar names, date strings).

Python dictionaries with optional keys become structures of `Option`
fields; Python truthiness (`if x:`, `x or y`) is modelled explicitly by
the `…Truthy` helpers.  Python `set` iteration order is unspecified, so
the set-based deduplications (`status`, nameservers) are determinized
with `List.dedup`, which preserves exactly the membership and
no-duplicates semantics of `list(set(…))`.
-/

/-! ## ASCII character helpers -/

/-- Decimal digit test on the ASCII codes, as Python regex `\d` (ASCII). -/
def isDigitCh (c : Char) : Bool := 48 ≤ c.toNat && c.toNat ≤ 57

/-- Whitespace test matching Python regex `\s` and `str.split()` /
`str.strip()` on ASCII data: space, tab, newline, carriage return,
vertical tab, form feed. -/
def isSpaceCh (c : Char) : Bool :=
  c = ' ' || c = '\t' || c = '\n' || c = '\r' || c = '\x0b' || c = '\x0c'

/-- Uppercase ASCII letter test, as the Python regex class `[A-Z]`. -/
def isUpperAscii (c : Char) : Bool := 65 ≤ c.toNat && c.toNat ≤ 90

/-- Numeric value of a digit character. -/
def dval (c : Char) : Nat := c.toNat - 48

/-- Python `str.lower()` restricted to ASCII (`Char.toLower` is the
ASCII case mapping). -/
def pyLower (s : String) : String := String.mk (s.data.map Char.toLower)

/-- Python `str.upper()` restricted to ASCII. -/
def pyUpper (s : String) : String := String.mk (s.data.map Char.toUpper)

/-! ## The status regular expression, `rdap_server.py` lines 79-90

The code runs `re.sub(r'\s*\(.*\)|\s*https?://\S+', '', s).strip()`,
then `re.sub(r'(?<!^)(?=[A-Z])', ' ', s_clean)`, then `.lower()`.
`re.sub` scans left to right; at each position the first alternative
`\s*\(.*\)` is tried first (greedy `.*` does not cross a newline and
extends to the last `)` on the line), then `\s*https?://\S+`.  Matched
text is deleted and scanning resumes after the match. -/

/-- Index of the last occurrence of a character in a list, if any. -/
def lastIdxOf (c : Char) : List Char → Option Nat
  | [] => none
  | x :: r =>
    match lastIdxOf c r with
    | some j => some (j + 1)
    | none => if x = c then some 0 else none

/-- Length of a match of the alternative `\s*\(.*\)` anchored at the
head of `l`: maximal leading whitespace, a literal `(`, then (greedy,
not crossing a newline) everything up to the last `)` on the line. -/
def alt1Len (l : List Char) : Option Nat :=
  let w := (l.takeWhile isSpaceCh).length
  match l.drop w with
  | '(' :: rest =>
    let line := rest.takeWhile (fun c => !(c = '\n'))
    match lastIdxOf ')' line with
    | some j => some (w + 1 + (j + 1))
    | none => none
  | _ => none

/-- Tests whether `p` is a (character-exact) leading sequence of `l`. -/
def startsWithL : List Char → List Char → Bool
  | [], _ => true
  | _ :: _, [] => false
  | p :: ps, x :: xs => p = x && startsWithL ps xs

/-- Length of the URL scheme `https://` or `http://` at the head of
`l` (the regex `https?://` is case sensitive here: the status pattern
is compiled without flags). -/
def httpSchemeLen (l : List Char) : Option Nat :=
  if startsWithL "https://".data l then some 8
  else if startsWithL "http://".data l then some 7
  else none

/-- Length of a match of the alternative `\s*https?://\S+` anchored at
the head of `l`. -/
def alt2Len (l : List Char) : Option Nat :=
  let w := (l.takeWhile isSpaceCh).length
  let r := l.drop w
  match httpSchemeLen r with
  | none => none
  | some k =>
    let v := (r.drop k).takeWhile (fun c => !isSpaceCh c)
    if 1 ≤ v.length then some (w + k + v.length) else none

/-- Length of a match of `\s*\(.*\)|\s*https?://\S+` anchored at the
head of `l` (first alternative preferred, as in `re`). -/
def matchLenAt (l : List Char) : Option Nat :=
  match alt1Len l with
  | some n => some n
  | none => alt2Len l

/-- Worker for the substitution scan.  Every match of the pattern is
at least one character long, so fuel equal to the input length
suffices; `max n 1` records that progress fact. -/
def subAux : Nat → List Char → List Char
  | 0, _ => []
  | _ + 1, [] => []
  | fuel + 1, c :: rest =>
    match matchLenAt (c :: rest) with
    | some n => subAux fuel ((c :: rest).drop (max n 1))
    | none => c :: subAux fuel rest

/-- The substitution `re.sub(r'\s*\(.*\)|\s*https?://\S+', '', ·)`. -/
def subStatusRegex (l : List Char) : List Char := subAux l.length l

/-- Python `str.strip()`: drop leading and trailing whitespace. -/
def stripWs (l : List Char) : List Char :=
  ((l.dropWhile isSpaceCh).reverse.dropWhile isSpaceCh).reverse

/-- Worker for the CamelCase splitter: inserts a space before every
uppercase ASCII letter of its argument. -/
def insertCapsAux : List Char → List Char
  | [] => []
  | c :: r =>
    if isUpperAscii c then ' ' :: c :: insertCapsAux r else c :: insertCapsAux r

/-- The substitution `re.sub(r'(?<!^)(?=[A-Z])', ' ', ·)`: a space is
inserted before every uppercase ASCII letter except at position 0. -/
def insertCaps : List Char → List Char
  | [] => []
  | c :: r => c :: insertCapsAux r

/-- Normalization of one WHOIS status entry (`rdap_server.py` lines
80-83 = lines 87-89): strip URLs and parentheticals, strip outer
whitespace, split CamelCase with spaces, lowercase. -/
def normalizeStatus (s : String) : String :=
  String.mk ((insertCaps (stripWs (subStatusRegex s.data))).map Char.toLower)

/-! ## Date parsing, `rdap_server.py` lines 11-26

`parse_date` tries `"%Y-%m-%d %H:%M:%S%z"`, `"%Y-%m-%d %H:%M:%S"`,
`"%Y-%m-%dT%H:%M:%SZ"`, `"%Y-%m-%d"` in order with
`datetime.datetime.strptime`, catching `ValueError` and returning
`None` when all fail.  CPython `_strptime` compiles each format to a
regex with `re.IGNORECASE` (so the literals `T` and `Z` also match
`t`/`z`), turns whitespace in the format into `\s+`, and uses these
directive patterns:
  `%Y` = `\d\d\d\d`, `%m` = `1[0-2]|0[1-9]|[1-9]`,
  `%d` = `3[01]|[12]\d|0[1-9]|[1-9]`, `%H` = `2[0-3]|[0-1]\d|\d`,
  `%M` = `[0-5]\d|\d`, `%S` = `6[0-1]|[0-5]\d|\d`,
  `%z` = `[+-]\d\d:?\d\d(:?\d\d(\.\d{1,6})?)?|Z` (the `Z` case
  sensitive), requiring the whole string to be consumed and then
building a `datetime`, which validates the calendar day, rejects
seconds 60-61 and year 0, rejects UTC offsets of 24 hours or more,
and rejects inconsistent colon usage inside a matched `%z` (see
`parseTz`).  A two-digit token whose continuation fails regex-backtracks to
a one-digit token; since every continuation begins with a non-digit,
committing to a valid two-digit token is equivalent, which the token
parsers below do. -/

/-- Naive or timezone-aware `datetime.datetime` value as produced by
`strptime`: the broken-down fields plus an optional UTC offset in
seconds (`tzinfo`). -/
structure PyDateTime where
  year : Nat
  month : Nat
  day : Nat
  hour : Nat
  minute : Nat
  second : Nat
  tzOffset : Option Int
deriving DecidableEq

/-- Gregorian leap-year rule used by `datetime`. -/
def isLeapYear (y : Nat) : Bool := (y % 4 == 0 && y % 100 != 0) || y % 400 == 0

/-- Number of days in a month, as validated by the `datetime`
constructor (months outside 1-12 cannot be produced by the parsers). -/
def daysInMonth (y m : Nat) : Nat :=
  if m = 2 then (if isLeapYear y then 29 else 28)
  else if m = 4 ∨ m = 6 ∨ m = 9 ∨ m = 11 then 30
  else 31

/-- Token for `%Y`: exactly four digits. -/
def parseYearTok : List Char → Option (Nat × List Char)
  | a :: b :: c :: d :: rest =>
    if isDigitCh a = true ∧ isDigitCh b = true ∧ isDigitCh c = true ∧ isDigitCh d = true then
      some (dval a * 1000 + dval b * 100 + dval c * 10 + dval d, rest)
    else none
  | _ => none

/-- Token for `%m`: two digits in 01-12, else one digit in 1-9. -/
def parseMonthTok : List Char → Option (Nat × List Char)
  | a :: b :: rest =>
    if isDigitCh a = true ∧ isDigitCh b = true ∧ 1 ≤ dval a * 10 + dval b ∧ dval a * 10 + dval b ≤ 12 then
      some (dval a * 10 + dval b, rest)
    else if isDigitCh a = true ∧ 1 ≤ dval a then some (dval a, b :: rest)
    else none
  | [a] => if isDigitCh a = true ∧ 1 ≤ dval a then some (dval a, []) else none
  | [] => none

/-- Token for `%d`: two digits in 01-31, else one digit in 1-9. -/
def parseDayTok : List Char → Option (Nat × List Char)
  | a :: b :: rest =>
    if isDigitCh a = true ∧ isDigitCh b = true ∧ 1 ≤ dval a * 10 + dval b ∧ dval a * 10 + dval b ≤ 31 then
      some (dval a * 10 + dval b, rest)
    else if isDigitCh a = true ∧ 1 ≤ dval a then some (dval a, b :: rest)
    else none
  | [a] => if isDigitCh a = true ∧ 1 ≤ dval a then some (dval a, []) else none
  | [] => none

/-- Token for `%H`: two digits in 00-23, else one digit. -/
def parseHourTok : List Char → Option (Nat × List Char)
  | a :: b :: rest =>
    if isDigitCh a = true ∧ isDigitCh b = true ∧ dval a * 10 + dval b ≤ 23 then
      some (dval a * 10 + dval b, rest)
    else if isDigitCh a = true then some (dval a, b :: rest)
    else none
  | [a] => if isDigitCh a = true then some (dval a, []) else none
  | [] => none

/-- Token for `%M`: two digits in 00-59, else one digit. -/
def parseMinTok : List Char → Option (Nat × List Char)
  | a :: b :: rest =>
    if isDigitCh a = true ∧ isDigitCh b = true ∧ dval a * 10 + dval b ≤ 59 then
      some (dval a * 10 + dval b, rest)
    else if isDigitCh a = true then some (dval a, b :: rest)
    else none
  | [a] => if isDigitCh a = true then some (dval a, []) else none
  | [] => none

/-- Token for `%S`: two digits in 00-61, else one digit (values 60-61
match the regex but are later rejected by the constructor). -/
def parseSecTok : List Char → Option (Nat × List Char)
  | a :: b :: rest =>
    if isDigitCh a = true ∧ isDigitCh b = true ∧ dval a * 10 + dval b ≤ 61 then
      some (dval a * 10 + dval b, rest)
    else if isDigitCh a = true then some (dval a, b :: rest)
    else none
  | [a] => if isDigitCh a = true then some (dval a, []) else none
  | [] => none

/-- Literal character of the format, matched case-insensitively
(CPython compiles strptime patterns with `re.IGNORECASE`). -/
def lit (c : Char) : List Char → Option (List Char)
  | x :: r => if Char.toLower x = Char.toLower c then some r else none
  | [] => none

/-- Whitespace in the format becomes `\s+`: one or more whitespace
characters. -/
def ws1 : List Char → Option (List Char)
  | x :: r => if isSpaceCh x then some (r.dropWhile isSpaceCh) else none
  | [] => none

/-- Two mandatory digits (used inside `%z`). -/
def twoDigitNum : List Char → Option (Nat × List Char)
  | a :: b :: r =>
    if isDigitCh a = true ∧ isDigitCh b = true then some (dval a * 10 + dval b, r) else none
  | _ => none

/-- Optional fraction `(\.\d{1,6})?` after the seconds of `%z`:
consumed (greedily, up to six digits) only when a dot followed by at
least one digit is present. -/
def dropFrac : List Char → List Char
  | '.' :: r =>
    if 1 ≤ (r.takeWhile isDigitCh).length then r.drop (min (r.takeWhile isDigitCh).length 6)
    else '.' :: r
  | l => l

/-- The `:?\d\d` minutes of `%z`, recording whether the optional colon
was used (if the colon is present the two digits must follow it: the
regex cannot backtrack into a digit where the colon stood). -/
def tzMinutes : List Char → Option (Bool × Nat × List Char)
  | ':' :: r =>
    match twoDigitNum r with
    | some (mm, r2) => some (true, mm, r2)
    | none => none
  | l =>
    match twoDigitNum l with
    | some (mm, r2) => some (false, mm, r2)
    | none => none

/-- The optional seconds group `(:?\d\d(\.\d{1,6})?)?` of `%z`,
recording whether its optional colon was used; `none` means the group
matches empty (the remainder then still carries any stray colon). -/
def tzSecondsGroup : List Char → Option (Bool × Nat × List Char)
  | ':' :: r =>
    match twoDigitNum r with
    | some (ss, r2) => some (true, ss, dropFrac r2)
    | none => none
  | l =>
    match twoDigitNum l with
    | some (ss, r2) => some (false, ss, dropFrac r2)
    | none => none

/-- The `%z` directive: `[+-]\d\d:?\d\d(:?\d\d(\.\d{1,6})?)?` or a
case-sensitive `Z`.  After the regex match CPython `_strptime`
converts the matched text and raises `ValueError` when the colon
usage is inconsistent: with a seconds group present, the colon before
the minutes and the colon before the seconds must either both be
present ("Inconsistent use of :") or both be absent (`int(':4')`
fails); confirmed on `+01:3045` and `+0130:45`.  The resulting offset
must also be strictly less than 24 hours in magnitude
(`datetime.timezone` raises otherwise).  Either error makes the
format fail, which `parse_date` treats as a parse failure. -/
def parseTz : List Char → Option (Int × List Char)
  | 'Z' :: r => some (0, r)
  | c :: r =>
    if c = '+' ∨ c = '-' then
      match twoDigitNum r with
      | none => none
      | some (hh, r1) =>
        match tzMinutes r1 with
        | none => none
        | some (colon1, mm, r2) =>
          match tzSecondsGroup r2 with
          | some (colon2, ss, r3) =>
            if colon1 = colon2 then
              if hh * 3600 + mm * 60 + ss < 86400 then
                some (if c = '-' then -((hh * 3600 + mm * 60 + ss : Nat) : Int)
                  else ((hh * 3600 + mm * 60 + ss : Nat) : Int), r3)
              else none
            else none
          | none =>
            if hh * 3600 + mm * 60 < 86400 then
              some (if c = '-' then -((hh * 3600 + mm * 60 : Nat) : Int)
                else ((hh * 3600 + mm * 60 : Nat) : Int), r2)
            else none
    else none
  | [] => none

/-- Calendar validation performed by the `datetime` constructor (the
token parsers already bound month, hour and minute). -/
def mkValid (y m d h mi s : Nat) (tz : Option Int) : Option PyDateTime :=
  if 1 ≤ y ∧ s ≤ 59 ∧ d ≤ daysInMonth y m then some ⟨y, m, d, h, mi, s, tz⟩ else none

/-- The common `%Y-%m-%d` head of all four formats. -/
def parseFmtDate (l : List Char) : Option (Nat × Nat × Nat × List Char) := do
  let (y, r) ← parseYearTok l
  let r ← lit '-' r
  let (m, r) ← parseMonthTok r
  let r ← lit '-' r
  let (d, r) ← parseDayTok r
  pure (y, m, d, r)

/-- The common `%H:%M:%S` time-of-day segment. -/
def parseTime (l : List Char) : Option (Nat × Nat × Nat × List Char) := do
  let (h, r) ← parseHourTok l
  let r ← lit ':' r
  let (mi, r) ← parseMinTok r
  let r ← lit ':' r
  let (s, r) ← parseSecTok r
  pure (h, mi, s, r)

/-- Format `"%Y-%m-%d %H:%M:%S%z"`. -/
def parseFmt1 (l : List Char) : Option PyDateTime := do
  let (y, m, d, r) ← parseFmtDate l
  let r ← ws1 r
  let (h, mi, s, r) ← parseTime r
  let (off, r) ← parseTz r
  match r with
  | [] => mkValid y m d h mi s (some off)
  | _ => none

/-- Format `"%Y-%m-%d %H:%M:%S"`. -/
def parseFmt2 (l : List Char) : Option PyDateTime := do
  let (y, m, d, r) ← parseFmtDate l
  let r ← ws1 r
  let (h, mi, s, r) ← parseTime r
  match r with
  | [] => mkValid y m d h mi s none
  | _ => none

/-- Format `"%Y-%m-%dT%H:%M:%SZ"`. -/
def parseFmt3 (l : List Char) : Option PyDateTime := do
  let (y, m, d, r) ← parseFmtDate l
  let r ← lit 'T' r
  let (h, mi, s, r) ← parseTime r
  let r ← lit 'Z' r
  match r with
  | [] => mkValid y m d h mi s none
  | _ => none

/-- Format `"%Y-%m-%d"`. -/
def parseFmt4 (l : List Char) : Option PyDateTime := do
  let (y, m, d, r) ← parseFmtDate l
  match r with
  | [] => mkValid y m d 0 0 0 none
  | _ => none

/-- The function `parse_date` of `rdap_server.py` (lines 11-26): the
four formats are tried in order and the first success wins; a string
matching none of them yields `None` rather than an error. -/
def parse_date (s : String) : Option PyDateTime :=
  match parseFmt1 s.data with
  | some dt => some dt
  | none =>
    match parseFmt2 s.data with
    | some dt => some dt
    | none =>
      match parseFmt3 s.data with
      | some dt => some dt
      | none => parseFmt4 s.data

/-! ## Date re-emission, `rdap_server.py` lines 28-45 -/

/-- Decimal digit character for `n % 10`. -/
def digitChar (n : Nat) : Char := Char.ofNat (48 + n % 10)

/-- Two-digit zero-padded decimal (all emitted fields are below 100). -/
def pad2 (n : Nat) : List Char := [digitChar (n / 10), digitChar n]

/-- The `%Y` of the platform C library (glibc): the year printed as a
plain decimal number with NO zero padding (confirmed: year 999 prints
as `999`, year 1 as `1`).  `datetime` years are between 1 and 9999,
so four branches cover every reachable year. -/
def yearChars (n : Nat) : List Char :=
  if n < 10 then [digitChar n]
  else if n < 100 then [digitChar (n / 10), digitChar n]
  else if n < 1000 then [digitChar (n / 100), digitChar (n / 10), digitChar n]
  else [digitChar (n / 1000), digitChar (n / 100), digitChar (n / 10), digitChar n]

/-- The `strftime("%Y-%m-%dT%H:%M:%SZ")` call of `format_date`: the
broken-down fields are printed (the year unpadded, the other fields
zero-padded to two digits) and any timezone offset is ignored (no
conversion to UTC takes place). -/
def pyUtcFmt (dt : PyDateTime) : String :=
  String.mk (yearChars dt.year ++ '-' :: pad2 dt.month ++ '-' :: pad2 dt.day ++
    'T' :: pad2 dt.hour ++ ':' :: pad2 dt.minute ++ ':' :: pad2 dt.second ++ ['Z'])

/-- Element of a list-valued WHOIS date field: the `whois` library
yields `datetime` objects or strings (`format_date` skips anything
else, so other element kinds contribute nothing and are not
modelled). -/
inductive DateItem where
  | dt : PyDateTime → DateItem
  | str : String → DateItem
deriving DecidableEq

/-- Value of a WHOIS date field: a `datetime`, a string, or a list. -/
inductive DateVal where
  | dt : PyDateTime → DateVal
  | str : String → DateVal
  | list : List DateItem → DateVal
deriving DecidableEq

/-- Result of `format_date`: a list of strings for list input, and an
optional string otherwise (`None` when the input does not parse). -/
inductive FmtRes where
  | list : List String → FmtRes
  | one : Option String → FmtRes
deriving DecidableEq

/-- The function `format_date` of `rdap_server.py` (lines 28-45). -/
def format_date : DateVal → FmtRes
  | .list ds => .list (ds.filterMap fun d =>
      match d with
      | .dt t => some (pyUtcFmt t)
      | .str s => (parse_date s).map pyUtcFmt)
  | .dt t => .one (some (pyUtcFmt t))
  | .str s => .one ((parse_date s).map pyUtcFmt)

/-! ## The WHOIS record and Python truthiness -/

/-- Value of a string-or-list WHOIS field (`status`, `name_servers`,
`emails`). -/
inductive FieldVal where
  | str : String → FieldVal
  | list : List String → FieldVal
deriving DecidableEq

/-- The parsed WHOIS record handed to `map_whois_to_rdap`: a mapping
with optional keys, accessed through `.get`.  `none` models an absent
key. -/
structure WhoisRecord where
  registry_domain_id : Option String := none
  status : Option FieldVal := none
  domain_status : Option FieldVal := none
  creation_date : Option DateVal := none
  updated_date : Option DateVal := none
  expiration_date : Option DateVal := none
  name_servers : Option FieldVal := none
  name_server : Option FieldVal := none
  registrar : Option String := none
  registrar_iana_id : Option String := none
  registrar_abuse_contact_phone : Option String := none
  emails : Option FieldVal := none
  dnssec : Option String := none
  whois_server : Option String := none
  registrar_whois_server : Option String := none

/-- Python truthiness of an optional string: `None` and `""` are
falsy. -/
def sTruthy : Option String → Bool
  | none => false
  | some s => !s.isEmpty

/-- Python truthiness of an optional string-or-list field: `None`,
`""` and `[]` are falsy. -/
def fvTruthy : Option FieldVal → Bool
  | none => false
  | some (.str s) => !s.isEmpty
  | some (.list l) => !l.isEmpty

/-- Python truthiness of a date value (a `datetime` is always
truthy). -/
def dvTruthy : DateVal → Bool
  | .dt _ => true
  | .str s => !s.isEmpty
  | .list l => !l.isEmpty

/-- Python `a or b` on optional string-or-list values. -/
def pyOrF (a b : Option FieldVal) : Option FieldVal :=
  if fvTruthy a = true then a else b

/-- Python `a or b` on optional strings. -/
def pyOrS (a b : Option String) : Option String :=
  if sTruthy a = true then a else b

/-! ## Status mapping, `rdap_server.py` lines 72-90 -/

/-- Entries of the selected status field, before normalization: a
single string becomes a one-element list. -/
def statusEntries (w : WhoisRecord) : List String :=
  match pyOrF w.status w.domain_status with
  | some (.str s) => [s]
  | some (.list l) => l
  | none => []

/-- The `status` array of the output.  A list-valued field is
normalized entrywise and deduplicated through a `set` (determinized
here with `List.dedup`); a single string is normalized into a
one-element list; a falsy field leaves the initial `[]`. -/
def statusOut (w : WhoisRecord) : List String :=
  if fvTruthy (pyOrF w.status w.domain_status) = true then
    match pyOrF w.status w.domain_status with
    | some (.str s) => [normalizeStatus s]
    | some (.list l) => (l.map normalizeStatus).dedup
    | none => []
  else []

/-! ## Event mapping, `rdap_server.py` lines 92-121

The loop walks `[('creation_date', 'registration'), ('updated_date',
'last update of registration'), ('expiration_date', 'expiration')]`
keeping the list `events` and the set `event_actions`; the loop body
is unrolled below into three `eventStep` applications. -/

/-- One RDAP event. -/
structure Event where
  eventAction : String
  eventDate : String
deriving DecidableEq

/-- Inner loop over the formatted dates of one list-valued field:
`for date in formatted_dates: if date and event_action not in
event_actions: append`. -/
def addDates (a : String) (ds : List String) (st : List Event × List String) :
    List Event × List String :=
  match ds with
  | [] => st
  | d :: rest =>
    if d ≠ "" ∧ a ∉ st.2 then addDates a rest (st.1 ++ [⟨a, d⟩], st.2 ++ [a])
    else addDates a rest st

/-- One iteration of the event loop for field value `v` with action
`a`: skip falsy fields, format, then append guarded by the
`event_actions` set. -/
def eventStep (a : String) (v : Option DateVal) (st : List Event × List String) :
    List Event × List String :=
  match v with
  | none => st
  | some dv =>
    if dvTruthy dv = true then
      match format_date dv with
      | .list ds => addDates a ds st
      | .one (some d) =>
        if d ≠ "" ∧ a ∉ st.2 then (st.1 ++ [⟨a, d⟩], st.2 ++ [a]) else st
      | .one none => st
    else st

/-- The `events` array of the output: the three date fields in order,
then the synthetic `"last update of RDAP database"` event carrying the
current UTC timestamp (the `datetime.datetime.utcnow()` read is the
`now` parameter). -/
def buildEvents (w : WhoisRecord) (now : PyDateTime) : List Event :=
  (eventStep "expiration" w.expiration_date
    (eventStep "last update of registration" w.updated_date
      (eventStep "registration" w.creation_date ([], [])))).1
  ++ [⟨"last update of RDAP database", pyUtcFmt now⟩]

/-! ## Nameserver mapping, `rdap_server.py` lines 123-130 -/

/-- Worker for Python `str.split()`: split on runs of whitespace,
dropping empty tokens.  Fuel equal to the input length suffices since
every step consumes at least one character. -/
def pySplitAux : Nat → List Char → List (List Char)
  | 0, _ => []
  | fuel + 1, l =>
    match l.dropWhile isSpaceCh with
    | [] => []
    | c :: r =>
      (c :: r).takeWhile (fun x => !isSpaceCh x) ::
        pySplitAux fuel ((c :: r).dropWhile (fun x => !isSpaceCh x))

/-- Python `str.split()` with no argument. -/
def pySplit (s : String) : List String :=
  (pySplitAux s.data.length s.data).map String.mk

/-- One RDAP nameserver object. -/
structure Nameserver where
  objectClassName : String
  ldhName : String
deriving DecidableEq

/-- Tokens of the selected nameserver field: a single string is
whitespace-split, a list is taken as is. -/
def nsTokens (w : WhoisRecord) : List String :=
  match pyOrF w.name_servers w.name_server with
  | some (.str s) => pySplit s
  | some (.list l) => l
  | none => []

/-- Lowercased, set-deduplicated nameserver names (the `set`
comprehension of line 129, determinized with `List.dedup`). -/
def nameserversOut (w : WhoisRecord) : List String :=
  if fvTruthy (pyOrF w.name_servers w.name_server) = true then
    match pyOrF w.name_servers w.name_server with
    | some (.str s) => ((pySplit s).map pyLower).dedup
    | some (.list l) => (l.map pyLower).dedup
    | none => []
  else []

/-! ## Registrar entity, `rdap_server.py` lines 132-222 -/

/-- Worker for the Python `in` substring test. -/
def containsSubL (pat : List Char) : List Char → Bool
  | [] => startsWithL pat []
  | x :: r => startsWithL pat (x :: r) || containsSubL pat r

/-- Python `pat in s` on strings. -/
def containsSub (s pat : String) : Bool := containsSubL pat.data s.data

/-- Resolution of the registrar IANA id (lines 136-142): the
WHOIS-supplied id when truthy, else the static substring table, else
the empty string. -/
def registrarIanaId (w : WhoisRecord) (registrar : String) : String :=
  if w.registrar_iana_id.getD "" = "" then
    if containsSub (pyLower registrar) "cosmotown" = true then "1509"
    else if containsSub (pyLower registrar) "markmonitor" = true then "292"
    else ""
  else w.registrar_iana_id.getD ""

/-- Loosely typed JSON-like value for the heterogeneous `vcardArray`
lists of the source. -/
inductive JVal where
  | str : String → JVal
  | arr : List JVal → JVal
  | obj : List (String × JVal) → JVal

/-- The registrar vCard (lines 144-171): version, formatted name,
kind, and the hardcoded structured address for Cosmotown. -/
def registrarVcard (registrar : String) : JVal :=
  let base : List JVal :=
    [JVal.arr [JVal.str "version", JVal.obj [], JVal.str "text", JVal.str "4.0"],
     JVal.arr [JVal.str "fn", JVal.obj [], JVal.str "text", JVal.str registrar],
     JVal.arr [JVal.str "kind", JVal.obj [], JVal.str "text", JVal.str "org"]]
  let props :=
    if containsSub (pyLower registrar) "cosmotown" = true then
      base ++ [JVal.arr [JVal.str "adr",
        JVal.obj [("label", JVal.str "68 Willow Road\nMenlo Park\nCA\n94025\nUS")],
        JVal.str "text",
        JVal.arr [JVal.str "", JVal.str "", JVal.str "68 Willow Road",
          JVal.str "Menlo Park", JVal.str "CA", JVal.str "94025", JVal.str "US"]]]
    else base
  JVal.arr [JVal.str "vcard", JVal.arr props]

/-- Candidate abuse emails from the record (lines 188-195), with `[]`
standing for Python `None` or an empty filter result (both falsy). -/
def abuseEmailsRaw (w : WhoisRecord) : List String :=
  match w.emails with
  | none => []
  | some (.str s) =>
    if s ≠ "" ∧ containsSub (pyLower s) "abuse" = true then [s] else []
  | some (.list l) =>
    if l ≠ [] then l.filter (fun e => containsSub (pyLower e) "abuse") else []

/-- Abuse emails after the Cosmotown fallback (lines 196-198). -/
def abuseEmailsOf (w : WhoisRecord) (registrar : String) : List String :=
  let raw := abuseEmailsRaw w
  if raw = [] ∧ containsSub (pyLower registrar) "cosmotown" = true then
    ["abuse@cosmotown.com"]
  else raw

/-- Abuse phone after the Cosmotown fallback (lines 189, 199-200). -/
def abusePhoneOf (w : WhoisRecord) (registrar : String) : Option String :=
  let p := w.registrar_abuse_contact_phone
  if sTruthy p = false ∧ containsSub (pyLower registrar) "cosmotown" = true then
    some "+1.6503198930"
  else p

/-- Nested abuse contact entity (it carries no `handle` key in the
source). -/
structure AbuseEntity where
  objectClassName : String
  roles : List String
  vcardArray : JVal

/-- The abuse vCard (lines 202-219). -/
def abuseVcard (phone : Option String) (emails : List String) : JVal :=
  let base : List JVal :=
    [JVal.arr [JVal.str "version", JVal.obj [], JVal.str "text", JVal.str "4.0"],
     JVal.arr [JVal.str "fn", JVal.obj [], JVal.str "text", JVal.str "Abuse Contact"],
     JVal.arr [JVal.str "kind", JVal.obj [], JVal.str "text", JVal.str "individual"]]
  let withTel :=
    if sTruthy phone = true then
      base ++ [JVal.arr [JVal.str "tel",
        JVal.obj [("type", JVal.arr [JVal.str "voice", JVal.str "work"])],
        JVal.str "uri", JVal.str ("tel:" ++ phone.getD "")]]
    else base
  JVal.arr [JVal.str "vcard", JVal.arr (withTel ++ emails.map (fun e =>
    JVal.arr [JVal.str "email", JVal.obj [("type", JVal.str "work")],
      JVal.str "text", JVal.str e]))]

/-- One RDAP public identifier. -/
structure PublicId where
  type : String
  identifier : String
deriving DecidableEq

/-- The registrar entity of the output. -/
structure RegistrarEntity where
  objectClassName : String
  handle : String
  roles : List String
  publicIds : List PublicId
  vcardArray : JVal
  entities : List AbuseEntity

/-- The `entities` array (lines 132-222): one registrar entity when
the registrar name is truthy, with a nested abuse entity when an abuse
email or phone is available. -/
def entitiesOut (w : WhoisRecord) : List RegistrarEntity :=
  match w.registrar with
  | none => []
  | some r =>
    if r = "" then []
    else
      let iana := registrarIanaId w r
      let emails := abuseEmailsOf w r
      let phone := abusePhoneOf w r
      let abuse : List AbuseEntity :=
        if emails ≠ [] ∨ sTruthy phone = true then
          [⟨"entity", ["abuse"], abuseVcard phone emails⟩]
        else []
      [⟨"entity", iana, ["registrar"], [⟨"IANA Registrar ID", iana⟩],
        registrarVcard r, abuse⟩]

/-! ## Links, notices, secureDNS, port43 and the response object -/

/-- One RDAP link object. -/
structure Link where
  value : String
  rel : String
  href : String
  mediaType : String
deriving DecidableEq

/-- Link of a notice (carries no `value` key in the source). -/
structure NoticeLink where
  href : String
  rel : String
  mediaType : String
deriving DecidableEq

/-- One RDAP notice. -/
structure Notice where
  title : String
  description : List String
  links : List NoticeLink
deriving DecidableEq

/-- The `secureDNS` block. -/
structure SecureDns where
  delegationSigned : Bool
deriving DecidableEq

/-- The `links` array (lines 228-244): the self link always, plus a
related link on the registrar WHOIS server when available. -/
def linksOut (w : WhoisRecord) (domain_name : String) : List Link :=
  let self : Link :=
    ⟨"https://www.cosmotown.com/rdap/domain/" ++ pyLower domain_name, "self",
     "https://www.cosmotown.com/rdap/domain/" ++ pyLower domain_name,
     "application/rdap+json"⟩
  let rws := pyOrS w.registrar_whois_server w.whois_server
  if sTruthy rws = true then
    [self,
     ⟨"https://" ++ rws.getD "" ++ "/domain/" ++ pyLower domain_name, "related",
      "https://" ++ rws.getD "" ++ "/domain/" ++ pyLower domain_name,
      "application/rdap+json"⟩]
  else [self]

/-- The static `notices` array (lines 246-287). -/
def noticesOut : List Notice :=
  [⟨"Terms of Use", ["Service subject to Terms of Use."],
    [⟨"https://www.cosmotown.com/terms", "alternate", "text/html"⟩]⟩,
   ⟨"Status Codes",
    ["For more information on domain status codes, please visit https://icann.org/epp"],
    [⟨"https://icann.org/epp", "alternate", "text/html"⟩]⟩,
   ⟨"RDDS Inaccuracy Complaint Form",
    ["URL of the ICANN RDDS Inaccuracy Complaint Form: https://www.icann.org/wicf"],
    [⟨"https://www.icann.org/wicf", "alternate", "text/html"⟩]⟩]

/-- The `port43` key (lines 289-292), absent when both server fields
are falsy. -/
def port43Out (w : WhoisRecord) : Option String :=
  let v := pyOrS w.whois_server w.registrar_whois_server
  if sTruthy v = true then v else none

/-- The fixed `rdapConformance` list. -/
def rdapConformanceList : List String :=
  ["rdap_level_0", "icann_rdap_technical_implementation_guide_0",
   "icann_rdap_response_profile_0"]

/-- The RDAP domain object built by `map_whois_to_rdap`. -/
structure RdapResponse where
  objectClassName : String
  handle : String
  ldhName : String
  unicodeName : String
  status : List String
  entities : List RegistrarEntity
  events : List Event
  nameservers : List Nameserver
  secureDNS : SecureDns
  links : List Link
  notices : List Notice
  rdapConformance : List String
  port43 : Option String

/-- Body of `map_whois_to_rdap` for a non-null record (`rdap_server.py`
lines 48-294).  The handle is `whois_data.get('registry_domain_id',
domain_name.upper() + "-DOMAIN")`: the uppercased-domain fallback is
used only when the key is absent. -/
def mapSome (w : WhoisRecord) (domain_name : String) (now : PyDateTime) : RdapResponse where
  objectClassName := "domain"
  handle := w.registry_domain_id.getD (pyUpper domain_name ++ "-DOMAIN")
  ldhName := pyLower domain_name
  unicodeName := domain_name
  status := statusOut w
  entities := entitiesOut w
  events := buildEvents w now
  nameservers := (nameserversOut w).map (fun n => ⟨"nameserver", n⟩)
  secureDNS := ⟨pyLower (w.dnssec.getD "") == "signeddelegation"⟩
  links := linksOut w domain_name
  notices := noticesOut
  rdapConformance := rdapConformanceList
  port43 := port43Out w

/-- The message of the `AttributeError` raised by `None.get(…)`. -/
def noneGetMsg : String :=
  "\x27NoneType\x27 object has no attribute \x27get\x27"

/-- The function `map_whois_to_rdap` of `rdap_server.py` (lines
47-294).  The dictionary literal of lines 48-67 evaluates
`whois_data.get('registry_domain_id', …)` BEFORE the `if whois_data is
None` guard of line 69 is reached, so a null record raises
`AttributeError` and the early-return branch of line 70 is
unreachable; the null case is therefore an error, not a response. -/
def map_whois_to_rdap (whois_data : Option WhoisRecord) (domain_name : String)
    (now : PyDateTime) : Except String RdapResponse :=
  match whois_data with
  | none => .error noneGetMsg
  | some w => .ok (mapSome w domain_name now)

/-! ## The HTTP orchestrator, `rdap_server.py` lines 301-324 -/

/-- The RDAP-flavored error document of the `except` branch. -/
structure ErrorDoc where
  errorCode : Nat
  title : String
  description : List String
  rdapConformance : List String
deriving DecidableEq

/-- Body of an HTTP response: a serialized RDAP object or a serialized
error document. -/
inductive HttpBody where
  | rdap : RdapResponse → HttpBody
  | err : ErrorDoc → HttpBody

/-- HTTP response with status code, media type and CORS header. -/
structure HttpResp where
  status : Nat
  contentType : String
  corsAllowOrigin : String
  body : HttpBody

/-- The 500 error response of lines 310-324. -/
def errResp (e : String) : HttpResp :=
  ⟨500, "application/rdap+json", "*",
   .err ⟨500, "Internal Server Error", [e], rdapConformanceList⟩⟩

/-- The route handler `domain_lookup` (lines 301-324): the WHOIS
lookup result (the outcome of `whois.whois(domain_name)`, an external
collaborator) is passed in as an `Except`; any raised error, from the
lookup or from `map_whois_to_rdap`, is caught and becomes the single
500 error document; otherwise the mapped object is returned with
status 200. -/
def domain_lookup (lk : Except String (Option WhoisRecord)) (domain_name : String)
    (now : PyDateTime) : HttpResp :=
  match lk with
  | .error e => errResp e
  | .ok wd =>
    match map_whois_to_rdap wd domain_name now with
    | .error e => errResp e
    | .ok r => ⟨200, "application/rdap+json", "*", .rdap r⟩

/-! ## Definitions taken from the words of the specification -/

/-- Alphanumeric-or-underscore test, from the words of the spec. -/
def isAlnumUnderscore (c : Char) : Bool :=
  (48 ≤ c.toNat && c.toNat ≤ 57) || (65 ≤ c.toNat && c.toNat ≤ 90) ||
  (97 ≤ c.toNat && c.toNat ≤ 122) || c = '_'

/-- Modelled from the spec, for comparison only (claim C5 describes a
fallback-handle derivation that is absent from `src/rdap_server.py`):
replace every character outside the alphanumeric/underscore set with
`_` and truncate to 80 characters; the claimed handle is this string
with a fixed suffix appended. -/
def sanitizedHandleSpec (d : String) : String :=
  String.mk ((d.data.map fun c => if isAlnumUnderscore c = true then c else '_').take 80)

/-- A fixed timestamp used as the wall-clock reading in concrete
instances. -/
def now0 : PyDateTime := ⟨2024, 8, 2, 2, 17, 33, none⟩

/-! ## Characterizations used by the statements -/

/-- Record used in the C1 witness. -/
def wC1 : WhoisRecord :=
  { status := some (.list
      ["clientTransferProhibited (https://icann.org/epp#clientTransferProhibited)",
       "serverHold"]) }

/-- Packing a small scalar value into a `Char` preserves its code. -/
theorem toNat_ofNat_valid {n : Nat} (h : n < 55296) : (Char.ofNat n).toNat = n := by
  have hv : n.isValidChar := Or.inl h
  simp only [Char.ofNat, dif_pos hv]
  rfl

/-- The ASCII lowercase map never returns an uppercase ASCII letter. -/
theorem isUpperAscii_toLower (c : Char) : isUpperAscii (Char.toLower c) = false := by
  rw [show Char.toLower c
      = if c.toNat ≥ 65 ∧ c.toNat ≤ 90 then Char.ofNat (c.toNat + 32) else c from rfl]
  split
  next h =>
    have h1 : (Char.ofNat (c.toNat + 32)).toNat = c.toNat + 32 :=
      toNat_ofNat_valid (by omega)
    simp [isUpperAscii, h1]
    omega
  next h =>
    simp [isUpperAscii]
    omega

/-- Every character of a normalized status entry (the final `.lower()`
of the pipeline) is outside `A`-`Z`. -/
theorem normalizeStatus_lower (s : String) (c : Char)
    (hc : c ∈ (normalizeStatus s).data) : isUpperAscii c = false := by
  unfold normalizeStatus at hc
  obtain ⟨c0, _, rfl⟩ := List.mem_map.mp hc
  exact isUpperAscii_toLower c0

/-! ## Claim C1 -/

/-- C1 counterexample: the claim asserts that every normalized status
entry is free of parentheses, for every WHOIS status value.  The
status string `"a(B"` has no closing parenthesis, so the first regex
alternative `\s*\(.*\)` does not match and nothing is stripped; the
output entry `"a( b"` still contains `(`. -/
theorem C1_counterexample :
    (mapSome { status := some (.str "a(B") } "example.com" now0).status = ["a( b"]
    ∧ '(' ∈ ("a( b").data :=
  ⟨rfl, by decide⟩

/-- C1 (amended): every entry of the output status array is the
normalization pipeline (strip URL/parenthetical, strip outer
whitespace, space before interior capitals, lowercase) applied to one
entry of the selected input field; the output is deduplicated and
free of uppercase ASCII letters; a missing (or falsy) status field
yields the empty list; on a well-formed entry with a trailing
parenthesized URL annotation the annotation is removed, as in the
example of the specification. -/
theorem C1_status_normalization (w : WhoisRecord) (d : String) (now : PyDateTime) :
    (mapSome w d now).status = statusOut w
    ∧ (∀ x ∈ statusOut w, ∃ e ∈ statusEntries w, x = normalizeStatus e)
    ∧ (statusOut w).Nodup
    ∧ (∀ x ∈ statusOut w, ∀ c ∈ x.data, isUpperAscii c = false)
    ∧ (fvTruthy (pyOrF w.status w.domain_status) = false → statusOut w = [])
    ∧ normalizeStatus "clientTransferProhibited (https://icann.org/epp#clientTransferProhibited)"
        = "client transfer prohibited" := by
  have hmem : ∀ x ∈ statusOut w, ∃ e ∈ statusEntries w, x = normalizeStatus e := by
    intro x hx
    unfold statusOut statusEntries at *
    rcases hst : pyOrF w.status w.domain_status with _ | fv
    · simp only [hst] at hx
      simp [fvTruthy] at hx
    · cases fv with
      | str s =>
        simp only [hst] at hx ⊢
        split at hx
        · simp at hx
          exact ⟨s, by simp, hx⟩
        · simp at hx
      | list l =>
        simp only [hst] at hx ⊢
        split at hx
        · rw [List.mem_dedup] at hx
          obtain ⟨e, he, rfl⟩ := List.mem_map.mp hx
          exact ⟨e, he, rfl⟩
        · simp at hx
  refine ⟨rfl, hmem, ?_, ?_, ?_, by rfl⟩
  · unfold statusOut
    rcases hst : pyOrF w.status w.domain_status with _ | fv
    · simp
    · cases fv with
      | str s => split <;> simp
      | list l => split
                  · exact List.nodup_dedup _
                  · exact List.nodup_nil
  · intro x hx c hc
    obtain ⟨e, _, rfl⟩ := hmem x hx
    exact normalizeStatus_lower e c hc
  · intro h
    unfold statusOut
    simp [h]

/-- C1 witness: the normalized entry of the canonical example is in
the output for a concrete record, and it arises from an input entry
by the pipeline. -/
theorem C1_witness :
    "client transfer prohibited" ∈ statusOut wC1
    ∧ ∃ e ∈ statusEntries wC1, "client transfer prohibited" = normalizeStatus e :=
  ⟨by decide, (C1_status_normalization wC1 "example.com" now0).2.1 _ (by decide)⟩

/-! ## Event loop characterization -/

/-- C4 failing input: the claim says a null WHOIS record yields a
well-formed minimal RDAP object, and the `if whois_data is None`
guard of line 69 shows this is the intent of the code; but the
dictionary literal of lines 48-67 calls `whois_data.get(…)` first, so
the normalizer raises `AttributeError` on a null record instead of
returning anything. -/
theorem C4_null_record_raises :
    map_whois_to_rdap none "example.com" now0 = .error noneGetMsg := rfl

/-! ## Claim C5 -/

/-- C5 counterexample: the claim derives the fallback handle by
replacing non-alphanumeric characters with `_` and truncating to 80
characters before appending a fixed suffix, so for the domain
`"a.b"` the claimed handle would start with `"a_b"`; the code instead
computes `domain_name.upper() + "-DOMAIN"`, which for a record
without `registry_domain_id` gives `"A.B-DOMAIN"`, whose first three
characters differ from `"a_b"`. -/
theorem C5_counterexample :
    (mapSome { } "a.b" now0).handle = "A.B-DOMAIN"
    ∧ sanitizedHandleSpec "a.b" = "a_b"
    ∧ ("A.B-DOMAIN").take 3 ≠ "a_b" :=
  ⟨rfl, by decide, by decide⟩

/-- C5 (amended): when the record does not supply a registry domain
id (the key is absent), the handle is the requested domain name
uppercased with the fixed suffix `"-DOMAIN"` appended; no character
replacement and no truncation take place. -/
theorem C5_fallback_handle (w : WhoisRecord) (d : String) (now : PyDateTime)
    (h : w.registry_domain_id = none) :
    (mapSome w d now).handle = pyUpper d ++ "-DOMAIN" := by
  show w.registry_domain_id.getD (pyUpper d ++ "-DOMAIN") = _
  rw [h]
  rfl

/-- C5 witness: the fallback handle of a concrete domain. -/
theorem C5_witness :
    (mapSome { } "a.b.c" now0).handle = pyUpper "a.b.c" ++ "-DOMAIN"
    ∧ pyUpper "a.b.c" ++ "-DOMAIN" = "A.B.C-DOMAIN" :=
  ⟨C5_fallback_handle { } "a.b.c" now0 rfl, by decide⟩

/-! ## Claim C6 -/

/-- C6 failing input: a record whose `registry_domain_id` key is
present and holds the empty string.  The claim (and the spec
invariant) say the handle is never empty, but `dict.get` only falls
back to the derived default when the key is absent, so the handle is
the empty string here; the code uses falsy-coalescing `or` for the
other fields, which shows the slip. -/
theorem C6_empty_handle :
    (mapSome { registry_domain_id := some "" } "example.com" now0).handle = "" := rfl

/-! ## Claim C7 -/

/-- C7: when the record carries a truthy registrar name, the output
has exactly one registrar entity; its handle and its IANA Registrar
ID public identifier both equal the resolved id, which is the
WHOIS-supplied id when one is supplied (truthy), else `"1509"` for a
name containing `cosmotown` case-insensitively, else `"292"` for a
name containing `markmonitor`, else the empty string (present, not
absent). -/
theorem C7_registrar_handle (w : WhoisRecord) (d : String) (now : PyDateTime)
    (r : String) (hr : w.registrar = some r) (hne : r ≠ "") :
    ∃ e, (mapSome w d now).entities = [e]
    ∧ e.handle = registrarIanaId w r
    ∧ e.publicIds = [⟨"IANA Registrar ID", registrarIanaId w r⟩]
    ∧ (∀ id, w.registrar_iana_id = some id → id ≠ "" → registrarIanaId w r = id)
    ∧ (w.registrar_iana_id.getD "" = "" →
        containsSub (pyLower r) "cosmotown" = true → registrarIanaId w r = "1509")
    ∧ (w.registrar_iana_id.getD "" = "" → containsSub (pyLower r) "cosmotown" = false →
        containsSub (pyLower r) "markmonitor" = true → registrarIanaId w r = "292")
    ∧ (w.registrar_iana_id.getD "" = "" → containsSub (pyLower r) "cosmotown" = false →
        containsSub (pyLower r) "markmonitor" = false → registrarIanaId w r = "") := by
  have hent : (mapSome w d now).entities
      = [⟨"entity", registrarIanaId w r, ["registrar"],
          [⟨"IANA Registrar ID", registrarIanaId w r⟩], registrarVcard r,
          if abuseEmailsOf w r ≠ [] ∨ sTruthy (abusePhoneOf w r) = true then
            [⟨"entity", ["abuse"], abuseVcard (abusePhoneOf w r) (abuseEmailsOf w r)⟩]
          else []⟩] := by
    show entitiesOut w = _
    unfold entitiesOut
    rw [hr]
    dsimp only
    rw [if_neg hne]
  refine ⟨_, hent, rfl, rfl, ?_, ?_, ?_, ?_⟩
  · intro id hid hne2
    unfold registrarIanaId
    rw [hid]
    simp [hne2]
  · intro h0 hc
    unfold registrarIanaId
    rw [if_pos h0, if_pos hc]
  · intro h0 hc hm
    unfold registrarIanaId
    rw [if_pos h0, if_neg (by simp [hc]), if_pos hm]
  · intro h0 hc hm
    unfold registrarIanaId
    rw [if_pos h0, if_neg (by simp [hc]), if_neg (by simp [hm])]

/-- C7 witness: a record naming Cosmotown with no supplied IANA id
resolves to handle `"1509"`. -/
theorem C7_witness :
    ∃ e, (mapSome { registrar := some "Cosmotown, Inc." } "example.com" now0).entities = [e]
    ∧ e.handle = "1509" := by
  obtain ⟨e, he, hh, -, -, hc, -, -⟩ :=
    C7_registrar_handle { registrar := some "Cosmotown, Inc." } "example.com" now0
      "Cosmotown, Inc." rfl (by decide)
  exact ⟨e, he, by rw [hh, hc rfl (by decide)]⟩

/-! ## Claim C8 -/

/-- The nameserver list is always the lowercased tokens of the
selected field, set-deduplicated (for a falsy field both sides are
empty). -/
theorem nameserversOut_eq (w : WhoisRecord) :
    nameserversOut w = ((nsTokens w).map pyLower).dedup := by
  unfold nameserversOut nsTokens
  rcases h : pyOrF w.name_servers w.name_server with _ | fv
  · simp [fvTruthy]
  · cases fv with
    | str s =>
      dsimp only
      by_cases ht : fvTruthy (some (.str s)) = true
      · rw [if_pos ht]
      · rw [if_neg ht]
        have hs : s = "" := by
          simp [fvTruthy, String.isEmpty_iff] at ht
          exact ht
        subst hs
        rfl
    | list l =>
      dsimp only
      by_cases ht : fvTruthy (some (.list l)) = true
      · rw [if_pos ht]
      · rw [if_neg ht]
        have hl : l = [] := by
          simp [fvTruthy] at ht
          exact ht
        subst hl
        rfl

/-- Wrapping names in nameserver objects and projecting the name back
is the identity. -/
theorem map_ldh_mk (l : List String) :
    (l.map (fun n => (⟨"nameserver", n⟩ : Nameserver))).map Nameserver.ldhName = l := by
  induction l with
  | nil => rfl
  | cons a t ih => simp [ih]

/-- C8: every output nameserver object has object class
`"nameserver"`; the list of their names is deduplicated and contains
exactly the lowercasings of the input tokens (from `name_servers` or
`name_server`, a single string being whitespace-split); mixed-case
duplicates collapse to a single entry, as on the concrete example of
the specification. -/
theorem C8_nameservers (w : WhoisRecord) (d : String) (now : PyDateTime) :
    ((mapSome w d now).nameservers.map Nameserver.ldhName).Nodup
    ∧ (∀ x, x ∈ (mapSome w d now).nameservers.map Nameserver.ldhName ↔
        ∃ t ∈ nsTokens w, pyLower t = x)
    ∧ (∀ o ∈ (mapSome w d now).nameservers, o.objectClassName = "nameserver")
    ∧ (mapSome { name_servers := some (.list ["NS1.EXAMPLE.com", "ns1.example.COM"]) }
        d now).nameservers = [⟨"nameserver", "ns1.example.com"⟩] := by
  have hm : (mapSome w d now).nameservers
      = (nameserversOut w).map (fun n => ⟨"nameserver", n⟩) := rfl
  have hname : (mapSome w d now).nameservers.map Nameserver.ldhName
      = ((nsTokens w).map pyLower).dedup := by
    rw [hm, nameserversOut_eq]
    exact map_ldh_mk _
  refine ⟨?_, ?_, ?_, ?_⟩
  · rw [hname]
    exact List.nodup_dedup _
  · intro x
    rw [hname, List.mem_dedup]
    exact List.mem_map
  · intro o ho
    rw [hm] at ho
    obtain ⟨n, -, rfl⟩ := List.mem_map.mp ho
    rfl
  · rfl

/-- C8 witness: the mixed-case duplicate pair collapses to one entry,
and the entry carries the fixed object class. -/
theorem C8_witness :
    (mapSome { name_servers := some (.list ["NS1.EXAMPLE.com", "ns1.example.COM"]) }
        "example.com" now0).nameservers = [⟨"nameserver", "ns1.example.com"⟩]
    ∧ (⟨"nameserver", "ns1.example.com"⟩ : Nameserver).objectClassName = "nameserver" :=
  ⟨(C8_nameservers { name_servers := some (.list ["NS1.EXAMPLE.com", "ns1.example.COM"]) }
      "example.com" now0).2.2.2,
   (C8_nameservers { name_servers := some (.list ["NS1.EXAMPLE.com", "ns1.example.COM"]) }
      "example.com" now0).2.2.1 _ (by decide)⟩

/-! ## Claim C9 -/

/-- C9: when the WHOIS lookup fails, or the lookup succeeds and the
normalizer raises, the response is status 500 whose body is exactly
the RDAP error document with code 500, title
`"Internal Server Error"`, the raised message as the single
description entry and the fixed three-element conformance list; when
neither raises, the response is status 200 carrying the mapped object
(by the case analysis these are the only possible outcomes: there is
no partial-success state). -/
theorem C9_error_handling (lk : Except String (Option WhoisRecord)) (d : String)
    (now : PyDateTime) :
    (∀ m, lk = .error m → domain_lookup lk d now
      = ⟨500, "application/rdap+json", "*",
          .err ⟨500, "Internal Server Error", [m], rdapConformanceList⟩⟩)
    ∧ (∀ wd m, lk = .ok wd → map_whois_to_rdap wd d now = .error m →
        domain_lookup lk d now
          = ⟨500, "application/rdap+json", "*",
              .err ⟨500, "Internal Server Error", [m], rdapConformanceList⟩⟩)
    ∧ (∀ wd r, lk = .ok wd → map_whois_to_rdap wd d now = .ok r →
        domain_lookup lk d now = ⟨200, "application/rdap+json", "*", .rdap r⟩) := by
  refine ⟨?_, ?_, ?_⟩
  · intro m h
    subst h
    rfl
  · intro wd m h hm
    subst h
    unfold domain_lookup
    dsimp only
    rw [hm]
    rfl
  · intro wd r h hm
    subst h
    unfold domain_lookup
    dsimp only
    rw [hm]

/-- C9 witness: a failing lookup produces the 500 error document, and
a successful lookup of a record together with a successful mapping
produces the 200 response. -/
theorem C9_witness :
    domain_lookup (.error "connection timed out") "example.com" now0
      = ⟨500, "application/rdap+json", "*",
          .err ⟨500, "Internal Server Error", ["connection timed out"],
            rdapConformanceList⟩⟩
    ∧ domain_lookup (.ok (some { })) "example.com" now0
      = ⟨200, "application/rdap+json", "*", .rdap (mapSome { } "example.com" now0)⟩ :=
  ⟨(C9_error_handling (.error "connection timed out") "example.com" now0).1
      "connection timed out" rfl,
   (C9_error_handling (.ok (some { })) "example.com" now0).2.2
      (some { }) (mapSome { } "example.com" now0) rfl rfl⟩

/-! ## Claim C10 -/

/-- C10 counterexample: the claim quantifies over every record
including a null one, but a null record makes the normalizer raise
(the `.get` call precedes the `is None` guard), so no output and no
`unicodeName` exist for that input. -/
theorem C10_counterexample :
    map_whois_to_rdap none "c10.example" now0 = .error noneGetMsg := rfl

/-- C10 (amended): for every non-null record, the output always
contains the `unicodeName` field and its value is the requested
domain name exactly as supplied, not lowercased, even for pure-ASCII
names; the `ldhName` field by contrast is the lowercased name.  On a
null record the normalizer raises and produces no output. -/
theorem C10_unicode_name (w : WhoisRecord) (d : String) (now : PyDateTime) :
    (mapSome w d now).unicodeName = d ∧ (mapSome w d now).ldhName = pyLower d :=
  ⟨rfl, rfl⟩
